import Mathlib

/-!
Verification of the netweather URL-scanning pipeline: a shallow embedding of
the reachability checker (reachability.go), the parallel processor's per-job
counter logic (parallel.go), and the layered library-identification chain
(identifyLibrary and its strategies), together with proofs of the spec's
testable properties.

Strings are modelled as Lean `String` (lists of characters); the Go standard
library functions used by the source (strings.Split, strings.ReplaceAll,
strings.TrimSpace, strings.ToLower, strings.HasPrefix, strings.TrimPrefix)
are re-implemented here on `List Char` with the semantics of the Go versions
for non-empty separators/patterns (the source never passes empty ones).
Network I/O, the database, and the regular-expression engine used for
JavaScript code analysis are external effects; they enter the model as
explicit parameters (probe outcomes, lookup oracles, an abstract
`RegexEngine`).  The seven CDN URL regular expressions of part_006 are
literal-anchored and are compiled here by hand into executable matchers with
Go/RE2 leftmost-match semantics.
-/

namespace NetWeather

/-- Go `unicode.IsSpace` restricted to the ASCII whitespace characters
(space, tab, newline, carriage return, vertical tab, form feed). -/
def isSpaceGo (c : Char) : Bool :=
  c == ' ' || c == '\t' || c == '\n' || c == '\r' || c == Char.ofNat 11 || c == Char.ofNat 12

/-- Model of Go `strings.TrimSpace`: drop whitespace from both ends. -/
def goTrimSpace (s : String) : String :=
  ⟨((s.data.dropWhile isSpaceGo).reverse.dropWhile isSpaceGo).reverse⟩

/-- Model of Go `strings.HasPrefix`. -/
def goStartsWith (s pre : String) : Bool :=
  pre.data.isPrefixOf s.data

/-- Model of Go `strings.TrimPrefix`: drop `pre` from the front when present. -/
def goTrimPfx (s pre : String) : String :=
  if goStartsWith s pre then ⟨s.data.drop pre.data.length⟩ else s

/-- Model of Go `strings.ToLower` (ASCII case folding). -/
def goToLower (s : String) : String :=
  ⟨s.data.map Char.toLower⟩

/-- Character-level worker for `goSplit`: split around each occurrence of the
non-empty separator `s0 :: sr`, left to right, non-overlapping.  The `fuel`
argument (instantiated with the input length, an upper bound on the number of
steps) keeps the recursion structural so that proofs can evaluate it. -/
def splitGoF (s0 : Char) (sr : List Char) : Nat → List Char → List (List Char)
  | _, [] => [[]]
  | 0, c :: rest => [c :: rest]
  | fuel + 1, c :: rest =>
    if (s0 :: sr).isPrefixOf (c :: rest) then
      [] :: splitGoF s0 sr fuel (rest.drop sr.length)
    else
      match splitGoF s0 sr fuel rest with
      | [] => [[c]]
      | chunk :: more => (c :: chunk) :: more

/-- Entry point of `splitGoF` with enough fuel to process every character. -/
def splitGo (s0 : Char) (sr : List Char) (cs : List Char) : List (List Char) :=
  splitGoF s0 sr cs.length cs

/-- Model of Go `strings.Split` for a non-empty separator (the source only
splits on `"|"` and `"/"`). -/
def goSplit (s sep : String) : List String :=
  match sep.data with
  | [] => [s]
  | c :: cr => (splitGo c cr s.data).map (fun l => ⟨l⟩)

/-- Character-level worker for `goReplaceAll`: replace each non-overlapping
occurrence of the non-empty pattern `o0 :: orest`, left to right, with fuel
keeping the recursion structural as in `splitGoF`. -/
def replaceGoF (o0 : Char) (orest nw : List Char) : Nat → List Char → List Char
  | _, [] => []
  | 0, c :: rest => c :: rest
  | fuel + 1, c :: rest =>
    if (o0 :: orest).isPrefixOf (c :: rest) then
      nw ++ replaceGoF o0 orest nw fuel (rest.drop orest.length)
    else
      c :: replaceGoF o0 orest nw fuel rest

/-- Entry point of `replaceGoF` with enough fuel to process every
character. -/
def replaceGo (o0 : Char) (orest nw : List Char) (cs : List Char) : List Char :=
  replaceGoF o0 orest nw cs.length cs

/-- Model of Go `strings.ReplaceAll` for a non-empty pattern (the source only
replaces `".min"`, `".js"`, `".prod"`, `".production"` and `"_"`). -/
def goReplaceAll (s old nw : String) : String :=
  match old.data with
  | [] => s
  | c :: cr => ⟨replaceGo c cr nw.data s.data⟩

/-- Model of Go `strings.Contains` (substring test). -/
def goContains : String → String → Bool :=
  fun s sub =>
    let rec scan : List Char → Bool
      | [] => sub.data.isPrefixOf []
      | c :: rest => sub.data.isPrefixOf (c :: rest) || scan rest
    scan s.data

/-- First `n` characters of a string; models Go slicing `s[:n]` guarded by a
length check, as the source does for its code-analysis headers. -/
def goTake (s : String) (n : Nat) : String :=
  ⟨s.data.take n⟩

/-- LibraryInfo from part_006: identified library information
(`Name`, `Version`, `Checksum`, `Method`). -/
structure LibraryInfo where
  Name     : String
  Version  : String
  Checksum : String
  Method   : String
deriving DecidableEq, Repr

/-- Scan a string left to right for the earliest position where the literal
`lit` occurs followed by text accepted by `parse`; models RE2 leftmost-match
search for a regular expression whose form is a literal followed by a
deterministic tail (all seven CDN patterns of part_006 have this form). -/
def scanFrom (lit : List Char) (parse : List Char → Option α) : List Char → Option α
  | [] => none
  | c :: rest =>
    match (if lit.isPrefixOf (c :: rest) then parse (List.drop lit.length (c :: rest)) else none) with
    | some r => some r
    | none => scanFrom lit parse rest

/-- Parse one capture group of shape `[^X]+` (one or more characters outside
`bad`) followed by the single delimiter character `next`; returns the capture
and the remaining text.  Deterministic because the character class excludes
the delimiter, so RE2 greediness cannot backtrack across it. -/
def parseSegThen (bad : List Char) (next : Char) (cs : List Char) : Option (List Char × List Char) :=
  match cs.span (fun c => !(bad.contains c)) with
  | ([], _) => none
  | (s0 :: seg, rest) =>
    match rest with
    | [] => none
    | r0 :: rrest => if r0 = next then some (s0 :: seg, rrest) else none

/-- Matcher for the cdnjs pattern
`cdnjs\.cloudflare\.com/ajax/libs/([^/]+)/([^/]+)/` with its extractor
`(matches[1], matches[2])`. -/
def matchCdnjs (u : String) : Option (String × String) :=
  scanFrom "cdnjs.cloudflare.com/ajax/libs/".data
    (fun cs => do
      let (s1, r1) ← parseSegThen ['/'] '/' cs
      let (s2, _) ← parseSegThen ['/'] '/' r1
      some (⟨s1⟩, ⟨s2⟩)) u.data

/-- Matcher for the unpkg pattern `unpkg\.com/([^@/]+)@([^/]+)/` with its
extractor `(matches[1], matches[2])`. -/
def matchUnpkgVer (u : String) : Option (String × String) :=
  scanFrom "unpkg.com/".data
    (fun cs => do
      let (s1, r1) ← parseSegThen ['@', '/'] '@' cs
      let (s2, _) ← parseSegThen ['/'] '/' r1
      some (⟨s1⟩, ⟨s2⟩)) u.data

/-- Matcher for the versionless unpkg pattern `unpkg\.com/([^@/]+)/` with its
extractor `(matches[1], "latest")`. -/
def matchUnpkgLatest (u : String) : Option (String × String) :=
  scanFrom "unpkg.com/".data
    (fun cs => do
      let (s1, _) ← parseSegThen ['@', '/'] '/' cs
      some ((⟨s1⟩ : String), "latest")) u.data

/-- Matcher for the jsDelivr pattern
`cdn\.jsdelivr\.net/npm/([^@/]+)@([^/]+)/` with extractor
`(matches[1], matches[2])`. -/
def matchJsdelivrVer (u : String) : Option (String × String) :=
  scanFrom "cdn.jsdelivr.net/npm/".data
    (fun cs => do
      let (s1, r1) ← parseSegThen ['@', '/'] '@' cs
      let (s2, _) ← parseSegThen ['/'] '/' r1
      some (⟨s1⟩, ⟨s2⟩)) u.data

/-- Matcher for the versionless jsDelivr pattern
`cdn\.jsdelivr\.net/npm/([^@/]+)/` with extractor `(matches[1], "latest")`. -/
def matchJsdelivrLatest (u : String) : Option (String × String) :=
  scanFrom "cdn.jsdelivr.net/npm/".data
    (fun cs => do
      let (s1, _) ← parseSegThen ['@', '/'] '/' cs
      some ((⟨s1⟩ : String), "latest")) u.data

/-- Matcher for the Google Ajax APIs pattern
`googleapis\.com/ajax/libs/([^/]+)/([^/]+)/` with extractor
`(matches[1], matches[2])`. -/
def matchGoogleapis (u : String) : Option (String × String) :=
  scanFrom "googleapis.com/ajax/libs/".data
    (fun cs => do
      let (s1, r1) ← parseSegThen ['/'] '/' cs
      let (s2, _) ← parseSegThen ['/'] '/' r1
      some (⟨s1⟩, ⟨s2⟩)) u.data

/-- Matcher for the GitHub assets pattern
`github\.githubassets\.com/assets/([^-]+)` with the source's extractor, which
replaces underscores by hyphens in the capture and fixes the version to
`"github-hosted"`. -/
def matchGithubAssets (u : String) : Option (String × String) :=
  scanFrom "github.githubassets.com/assets/".data
    (fun cs =>
      match cs.takeWhile (fun c => c ≠ '-') with
      | [] => none
      | s0 :: seg => some (goReplaceAll ⟨s0 :: seg⟩ "_" "-", "github-hosted")) u.data

/-- The `cdnPatterns` table of part_006, in source order, with each entry's
`Extract` function already applied by the matcher. -/
def cdnPatterns : List (String → Option (String × String)) :=
  [matchCdnjs, matchUnpkgVer, matchUnpkgLatest, matchJsdelivrVer,
   matchJsdelivrLatest, matchGoogleapis, matchGithubAssets]

/-- First pattern in the table that matches, as in the source's `for` loop
over `cdnPatterns`. -/
def firstMatch : List (String → Option (String × String)) → String → Option (String × String)
  | [], _ => none
  | p :: rest, u =>
    match p u with
    | some r => some r
    | none => firstMatch rest u

/-- identifyLibraryFromURL from part_006: try each CDN pattern in order; on a
match, clean the name (`ReplaceAll ".min" ""` then `ReplaceAll "_" "-"`) and
return method `"url-pattern"` with an empty checksum. -/
def identifyLibraryFromURL (scriptURL : String) : Option LibraryInfo :=
  match firstMatch cdnPatterns scriptURL with
  | some (name, version) =>
    some { Name := goReplaceAll (goReplaceAll name ".min" "") "_" "-",
           Version := version, Checksum := "", Method := "url-pattern" }
  | none => none

/-- Abstract interface of the Go `regexp` engine as used by the
code-analysis strategies of part_006: `findSubmatch pat s` models
`regexp.MustCompile(pat).FindStringSubmatch(s)` (full match at index 0,
capture groups after, `none` for no match) and `matchString pat s` models
`MatchString`.  The engine is an external component; theorems quantify over
it or hypothesise its answers. -/
structure RegexEngine where
  findSubmatch : String → String → Option (List String)
  matchString : String → String → Bool

/-- cleanLibraryName from part_006: lower-case, strip `".js"`, `".min"`,
underscores to hyphens, trim, then normalize known naming variations. -/
def cleanLibraryName (name : String) : String :=
  let n := goToLower name
  let n := goReplaceAll n ".js" ""
  let n := goReplaceAll n ".min" ""
  let n := goReplaceAll n "_" "-"
  let n := goTrimSpace n
  if n = "jquery.js" ∨ n = "jquery-ui" ∨ n = "jqueryui" then "jquery"
  else if n = "react.js" ∨ n = "reactjs" then "react"
  else if n = "bootstrap.js" then "bootstrap"
  else if n = "angular.js" ∨ n = "angularjs" then "angular"
  else if n = "vue.js" ∨ n = "vuejs" then "vue"
  else if n = "moment.js" ∨ n = "momentjs" then "moment"
  else if n = "d3.js" ∨ n = "d3js" then "d3"
  else if n = "backbone.js" ∨ n = "backbonejs" then "backbone"
  else if n = "underscore.js" ∨ n = "underscorejs" then "underscore"
  else n

/-- extractNameFromURL from part_006: take the URL's last `/`-segment, drop
the extension after the last dot, strip `".min"`, `".prod"`, `".production"`,
keep only `[a-zA-Z0-9-_]` characters, and lower-case; `"unknown"` when
nothing remains. -/
def extractNameFromURL (scriptURL : String) : String :=
  let parts := goSplit scriptURL "/"
  match parts with
  | [] => "unknown"
  | _ =>
    let filename := parts.getLastD ""
    let filename :=
      match filename.data.reverse.dropWhile (fun c => c ≠ '.') with
      | [] => filename
      | _ :: before => (⟨before.reverse⟩ : String)
    let filename := goReplaceAll filename ".min" ""
    let filename := goReplaceAll filename ".prod" ""
    let filename := goReplaceAll filename ".production" ""
    let filename : String :=
      ⟨filename.data.filter (fun c => c.isAlpha || c.isDigit || c = '-' || c = '_')⟩
    if filename = "" then "unknown" else goToLower filename

/-- extractLibraryNameFromPattern from part_006: recognize which library a
context pattern is about by substring tests on the lower-cased pattern text,
in source order. -/
def extractLibraryNameFromPattern (pat : String) : String :=
  if goContains (goToLower pat) "jquery" then "jquery"
  else if goContains (goToLower pat) "react" then "react"
  else if goContains (goToLower pat) "bootstrap" then "bootstrap"
  else if goContains (goToLower pat) "angular" then "angular"
  else if goContains (goToLower pat) "vue" then "vue"
  else if goContains (goToLower pat) "lodash" then "lodash"
  else if goContains (goToLower pat) "moment" then "moment"
  else if goContains (goToLower pat) "d3" then "d3"
  else if goContains (goToLower pat) "backbone" then "backbone"
  else if goContains (goToLower pat) "underscore" then "underscore"
  else ""

/-- The `contextPatterns` table of analyzeCodeContext:
(pattern, NameGroup, VersionGroup), in source order. -/
def contextPatterns : List (String × Nat × Nat) :=
  [("(?i)jQuery\\s+v(\\d+\\.[\\d\\.]+[\\w\\-]*)|jQuery JavaScript Library\\s+v(\\d+\\.[\\d\\.]+[\\w\\-]*)", 0, 1),
   ("(?i)React\\s+v(\\d+\\.[\\d\\.]+[\\w\\-]*)|React\\.js\\s+v(\\d+\\.[\\d\\.]+[\\w\\-]*)", 0, 1),
   ("(?i)Bootstrap\\s+v(\\d+\\.[\\d\\.]+[\\w\\-]*)", 0, 1),
   ("(?i)Angular(?:JS)?\\s+v(\\d+\\.[\\d\\.]+[\\w\\-]*)", 0, 1),
   ("(?i)Vue\\.js\\s+v(\\d+\\.[\\d\\.]+[\\w\\-]*)|Vue\\s+v(\\d+\\.[\\d\\.]+[\\w\\-]*)", 0, 1),
   ("(?i)lodash\\s+v(\\d+\\.[\\d\\.]+[\\w\\-]*)", 0, 1),
   ("(?i)moment\\.js\\s+v(\\d+\\.[\\d\\.]+[\\w\\-]*)", 0, 1),
   ("(?i)d3\\.js\\s+v(\\d+\\.[\\d\\.]+[\\w\\-]*)|D3\\s+v(\\d+\\.[\\d\\.]+[\\w\\-]*)", 0, 1),
   ("(?i)backbone\\.js\\s+v(\\d+\\.[\\d\\.]+[\\w\\-]*)", 0, 1),
   ("(?i)underscore\\.js\\s+v(\\d+\\.[\\d\\.]+[\\w\\-]*)", 0, 1)]

/-- First non-empty string in a list; models the source's scan of capture
groups `matches[1..]` for the first non-empty version. -/
def firstNonEmpty : List String → String
  | [] => ""
  | s :: rest => if s ≠ "" then s else firstNonEmpty rest

/-- Loop body of analyzeCodeContext over `contextPatterns`. -/
def ctxLoop (E : RegexEngine) (header scriptURL : String) : List (String × Nat × Nat) → Option LibraryInfo
  | [] => none
  | (p, _, vg) :: rest =>
    match E.findSubmatch p header with
    | some ms =>
      if ms.length > vg then
        let name0 := extractLibraryNameFromPattern p
        let name := if name0 = "" then extractNameFromURL scriptURL else name0
        let version := firstNonEmpty (ms.drop 1)
        if version ≠ "" then
          some { Name := cleanLibraryName name, Version := version,
                 Checksum := "", Method := "context-analysis" }
        else ctxLoop E header scriptURL rest
      else ctxLoop E header scriptURL rest
    | none => ctxLoop E header scriptURL rest

/-- analyzeCodeContext from part_006: match the curated per-library context
patterns against the first 3000 characters of the code. -/
def analyzeCodeContext (E : RegexEngine) (jsCode scriptURL : String) : Option LibraryInfo :=
  ctxLoop E (goTake jsCode 3000) scriptURL contextPatterns

/-- The `versionPatterns` table of identifyLibraryFromCode, in source
order. -/
def versionPatterns : List String :=
  ["(?i)\\/\\*\\!?\\s*([a-zA-Z][a-zA-Z0-9\\-_\\.]*)\\s+v?(\\d+\\.[\\d\\.]+[\\w\\-\\+]*)",
   "(?i)\\/\\/\\s*([a-zA-Z][a-zA-Z0-9\\-_\\.]*)\\s+v?(\\d+\\.[\\d\\.]+[\\w\\-\\+]*)",
   "(?i)@version\\s+v?(\\d+\\.[\\d\\.]+[\\w\\-\\+]*)",
   "(?i)version:\\s*[\"\x27]v?(\\d+\\.[\\d\\.]+[\\w\\-\\+]*)[\"\x27]",
   "(?i)\"version\"\\s*:\\s*\"v?(\\d+\\.[\\d\\.]+[\\w\\-\\+]*)\"",
   "(?i)build:\\s*[\"\x27]?(\\d+\\.[\\d\\.]+[\\w\\-\\+]*)[\"\x27]?",
   "(?i)Built on:\\s*[\\d\\-\\s:]+v?(\\d+\\.[\\d\\.]+[\\w\\-\\+]*)"]

/-- Loop of identifyLibraryFromCode over `versionPatterns` on the first 2000
characters: a pattern with name and version groups yields `"code-analysis"`
with the cleaned lower-cased name; a version-only pattern derives the name
from the URL. -/
def verLoop (E : RegexEngine) (codeHeader scriptURL : String) : List String → Option LibraryInfo
  | [] => none
  | p :: rest =>
    match E.findSubmatch p codeHeader with
    | some ms =>
      if ms.length ≥ 3 then
        some { Name := cleanLibraryName (goToLower (goTrimSpace (ms.getD 1 ""))),
               Version := goTrimSpace (ms.getD 2 ""),
               Checksum := "", Method := "code-analysis" }
      else if ms.length ≥ 2 then
        some { Name := extractNameFromURL scriptURL,
               Version := goTrimSpace (ms.getD 1 ""),
               Checksum := "", Method := "code-analysis" }
      else verLoop E codeHeader scriptURL rest
    | none => verLoop E codeHeader scriptURL rest

/-- The `signatures` table of detectLibrarySignatures: (match pattern,
library name, optional version-extraction pattern), in source order. -/
def signatureTable : List (String × String × Option String) :=
  [("(?i)jquery|^\\s*\\(function\\s*\\(\\s*\\$|jQuery\\.fn\\.jquery", "jquery",
    some "(?i)jquery\\.fn\\.jquery\\s*=\\s*[\"\x27](\\d+\\.[\\d\\.]+[\\w\\-]*)[\"\x27]"),
   ("(?i)react|React\\.version|ReactDOM", "react",
    some "(?i)React\\.version\\s*=\\s*[\"\x27](\\d+\\.[\\d\\.]+[\\w\\-]*)[\"\x27]"),
   ("(?i)angular\\.module|angular\\.version", "angular",
    some "(?i)angular\\.version\\s*=\\s*[\"\x27](\\d+\\.[\\d\\.]+[\\w\\-]*)[\"\x27]"),
   ("(?i)vue\\.version|Vue\\.prototype", "vue",
    some "(?i)Vue\\.version\\s*=\\s*[\"\x27](\\d+\\.[\\d\\.]+[\\w\\-]*)[\"\x27]"),
   ("(?i)bootstrap|\\.modal|\\.tooltip|\\.popover", "bootstrap", none),
   ("(?i)lodash|_\\.VERSION", "lodash",
    some "(?i)_\\.VERSION\\s*=\\s*[\"\x27](\\d+\\.[\\d\\.]+[\\w\\-]*)[\"\x27]"),
   ("(?i)underscore|_\\.VERSION", "underscore",
    some "(?i)_\\.VERSION\\s*=\\s*[\"\x27](\\d+\\.[\\d\\.]+[\\w\\-]*)[\"\x27]"),
   ("(?i)moment\\.js|moment\\.version", "moment",
    some "(?i)moment\\.version\\s*=\\s*[\"\x27](\\d+\\.[\\d\\.]+[\\w\\-]*)[\"\x27]"),
   ("(?i)d3\\.version|d3\\.select", "d3",
    some "(?i)d3\\.version\\s*=\\s*[\"\x27](\\d+\\.[\\d\\.]+[\\w\\-]*)[\"\x27]")]

/-- Loop of detectLibrarySignatures over `signatureTable`. -/
def sigLoop (E : RegexEngine) (checkCode : String) : List (String × String × Option String) → Option LibraryInfo
  | [] => none
  | (p, nm, vp) :: rest =>
    if E.matchString p checkCode then
      let version :=
        match vp with
        | some vpat =>
          match E.findSubmatch vpat checkCode with
          | some vms => if vms.length > 1 then vms.getD 1 "unknown" else "unknown"
          | none => "unknown"
        | none => "unknown"
      some { Name := nm, Version := version, Checksum := "",
             Method := "signature-analysis" }
    else sigLoop E checkCode rest

/-- detectLibrarySignatures from part_006: match library signatures against
the first 5000 characters; version from the per-library secondary pattern
when it matches, else `"unknown"`. -/
def detectLibrarySignatures (E : RegexEngine) (jsCode _scriptURL : String) : Option LibraryInfo :=
  sigLoop E (goTake jsCode 5000) signatureTable

/-- identifyLibraryFromCode from part_006: context analysis first, then the
generic version-comment patterns on the first 2000 characters, then
signature detection. -/
def identifyLibraryFromCode (E : RegexEngine) (jsCode scriptURL : String) : Option LibraryInfo :=
  match analyzeCodeContext E jsCode scriptURL with
  | some info => some info
  | none =>
    match verLoop E (goTake jsCode 2000) scriptURL versionPatterns with
    | some info => some info
    | none => detectLibrarySignatures E jsCode scriptURL

/-- identifyLibrary from part_006: the strict ordered fallback chain.  The
strategy-3 checksum lookup (network plus process-wide cache) enters as the
oracle `api`; a separate stateful model of identifyLibraryFromAPI is given
below for the caching claims. -/
def identifyLibrary (E : RegexEngine) (api : String → Option LibraryInfo)
    (scriptURL checksum jsCode : String) : Option LibraryInfo :=
  match identifyLibraryFromURL scriptURL with
  | some info => some { info with Checksum := checksum }
  | none =>
    match identifyLibraryFromCode E jsCode scriptURL with
    | some info => some { info with Checksum := checksum }
    | none =>
      match api checksum with
      | some info => some info
      | none =>
        some { Name := extractNameFromURL scriptURL, Version := "unknown",
               Checksum := checksum, Method := "unknown" }

/-- State of the process-wide checksum identification machinery of part_006:
the in-memory `ChecksumCache` (an association list, most recent insert
first) and the log of checksums for which the external identification API
(queryPublicDataGuru) was launched — one entry per HTTP query. -/
structure IdState where
  cache : List (String × LibraryInfo)
  apiQueries : List String
deriving Repr

/-- ChecksumCache.Get: first binding of the checksum in the cache. -/
def cacheGet (cache : List (String × LibraryInfo)) (checksum : String) : Option LibraryInfo :=
  match cache with
  | [] => none
  | (k, v) :: rest => if k = checksum then some v else cacheGet rest checksum

/-- identifyLibraryFromAPI from part_006, sequentialized: on a cache hit
return the cached entry untouched; on a miss, launch the concurrent
fan-out (which always issues the external API query, recorded in
`apiQueries`) whose accepted first result is abstracted by the oracle
`race`; a non-nil accepted result is stored in the cache, a nil outcome
(timeout or all sources empty) is not cached. -/
def identifyLibraryFromAPI (race : String → Option LibraryInfo)
    (st : IdState) (checksum : String) : Option LibraryInfo × IdState :=
  match cacheGet st.cache checksum with
  | some cached => (some cached, st)
  | none =>
    let st1 : IdState := { st with apiQueries := st.apiQueries ++ [checksum] }
    match race checksum with
    | some result => (some result, { st1 with cache := (checksum, result) :: st1.cache })
    | none => (none, st1)

/-- Number of external API queries issued so far for a given checksum. -/
def apiQueryCount (st : IdState) (checksum : String) : Nat :=
  st.apiQueries.count checksum

/-- URLReachability from reachability.go.  `ScannedAt` (a wall-clock
timestamp) is not modelled.  Status codes are Go `int`. -/
structure URLReachability where
  OriginalURL : String
  HTTPAvailable : Bool
  HTTPSAvailable : Bool
  HTTPStatusCode : Int
  HTTPSStatusCode : Int
  HTTPRedirectURL : String
  HTTPSRedirectURL : String
  FinalURL : String
deriving DecidableEq, Repr

/-- HasSuccessfulResponse from reachability.go: HTTP 200 on either
protocol. -/
def hasSuccessfulResponse (r : URLReachability) : Bool :=
  (r.HTTPAvailable && r.HTTPStatusCode == 200) ||
  (r.HTTPSAvailable && r.HTTPSStatusCode == 200)

/-- Outcome of one `client.Get` probe: the response status and the final
request URL after redirects (`resp.Request.URL.String()`); `none` models an
HTTP client error. -/
structure ProbeResult where
  status : Int
  finalReqURL : String
deriving DecidableEq, Repr

/-- checkProtocol from reachability.go: on a client error leave the record
untouched; on a response mark the protocol available, record the status, and
record a redirect URL when the final request URL differs from the requested
one. -/
def checkProtocol (reqURL : String) (probe : Option ProbeResult)
    (isHTTP : Bool) (r : URLReachability) : URLReachability :=
  match probe with
  | none => r
  | some p =>
    if isHTTP then
      { r with HTTPAvailable := true, HTTPStatusCode := p.status,
               HTTPRedirectURL := if p.finalReqURL ≠ reqURL then p.finalReqURL else r.HTTPRedirectURL }
    else
      { r with HTTPSAvailable := true, HTTPSStatusCode := p.status,
               HTTPSRedirectURL := if p.finalReqURL ≠ reqURL then p.finalReqURL else r.HTTPSRedirectURL }

/-- determineRedirectURL from reachability.go: the redirect URL when
non-empty, else the original URL. -/
def determineRedirectURL (originalURL redirectURL : String) : String :=
  if redirectURL ≠ "" then redirectURL else originalURL

/-- Scheme detection of `net/url.Parse` (its getScheme loop, with Parse's
lower-casing of the scheme): `.error ()` models the "missing protocol
scheme" parse error for a leading colon, `.ok ""` means no scheme. -/
def getSchemeAux (orig : List Char) : List Char → Nat → Except Unit String
  | [], _ => .ok ""
  | c :: rest, i =>
    if c.isAlpha then getSchemeAux orig rest (i + 1)
    else if c.isDigit || c = '+' || c = '-' || c = '.' then
      if i = 0 then .ok "" else getSchemeAux orig rest (i + 1)
    else if c = ':' then
      if i = 0 then .error () else .ok (goToLower ⟨orig.take i⟩)
    else .ok ""

/-- Scheme of a raw URL string, as `url.Parse` reports it. -/
def getScheme (s : String) : Except Unit String :=
  getSchemeAux s.data s.data 0

/-- checkURLReachability from reachability.go, with the two network probes
supplied as parameters (`httpProbe` is used for the `http://` request,
`httpsProbe` for the `https://` request; in the single-scheme branches only
the matching one is consulted).  `none` models the function's hard error
(unparsable URL or unsupported scheme). -/
def checkURLReachability (inputURL : String)
    (httpProbe httpsProbe : Option ProbeResult) : Option URLReachability :=
  let r0 : URLReachability :=
    { OriginalURL := inputURL, HTTPAvailable := false, HTTPSAvailable := false,
      HTTPStatusCode := 0, HTTPSStatusCode := 0,
      HTTPRedirectURL := "", HTTPSRedirectURL := "", FinalURL := "" }
  match getScheme inputURL with
  | .error _ => none
  | .ok scheme =>
    if scheme = "" then
      let cleanURL := goTrimPfx inputURL "//"
      let httpURL := "http://" ++ cleanURL
      let r1 := checkProtocol httpURL httpProbe true r0
      let httpsURL := "https://" ++ cleanURL
      let r2 := checkProtocol httpsURL httpsProbe false r1
      let final :=
        if r2.HTTPSAvailable then determineRedirectURL httpsURL r2.HTTPSRedirectURL
        else if r2.HTTPAvailable then determineRedirectURL httpURL r2.HTTPRedirectURL
        else r2.FinalURL
      some { r2 with FinalURL := final }
    else if scheme = "http" then
      let r1 := checkProtocol inputURL httpProbe true r0
      some { r1 with FinalURL := determineRedirectURL inputURL r1.HTTPRedirectURL }
    else if scheme = "https" then
      let r1 := checkProtocol inputURL httpsProbe false r0
      some { r1 with FinalURL := determineRedirectURL inputURL r1.HTTPSRedirectURL }
    else none

/-- The five counters of ProgressTracker from parallel.go. -/
structure Tracker where
  processed : Nat
  scanned : Nat
  excluded : Nat
  skipped : Nat
  errors : Nat
deriving DecidableEq, Repr

/-- A tracker with all counters zero, as built by NewProgressTracker. -/
def Tracker.zero : Tracker :=
  { processed := 0, scanned := 0, excluded := 0, skipped := 0, errors := 0 }

/-- Terminal bucket a job lands in inside processURL. -/
inductive JobOutcome where
  | excluded
  | errored
  | skipped
  | scanned
deriving DecidableEq, Repr

/-- processURL from parallel.go, reduced to its counter and branching
behaviour: increment `processed`; exclusion-policy hit increments
`excluded`; a reachability hard error increments `errors`; a record with
neither protocol available increments `errors`; no HTTP 200 increments
`skipped`; otherwise the page is scanned and `scanned` is incremented.  The
exclusion policy `exclude` (shouldExcludeURL, defined outside the core
sources) and the reachability outcome `reach` are parameters. -/
def processURL (exclude : String → Bool) (reach : Except Unit URLReachability)
    (url : String) (t : Tracker) : Tracker × JobOutcome :=
  let t := { t with processed := t.processed + 1 }
  if exclude url then
    ({ t with excluded := t.excluded + 1 }, .excluded)
  else
    match reach with
    | .error _ => ({ t with errors := t.errors + 1 }, .errored)
    | .ok r =>
      if !r.HTTPAvailable && !r.HTTPSAvailable then
        ({ t with errors := t.errors + 1 }, .errored)
      else if !hasSuccessfulResponse r then
        ({ t with skipped := t.skipped + 1 }, .skipped)
      else
        ({ t with scanned := t.scanned + 1 }, .scanned)

/-- A fully completed run: every queued job is handed to processURL exactly
once.  Atomic counter increments commute, so the concurrent interleaving of
a completed run is counter-equivalent to this sequential fold. -/
def runJobs (exclude : String → Bool) : List (String × Except Unit URLReachability) → Tracker → Tracker
  | [], t => t
  | (url, reach) :: rest, t => runJobs exclude rest (processURL exclude reach url t).1

/-- Worker-count computation of ProcessURLs (parallel.go lines 114-121):
clamp the configured count up to 1 first, then down to the job count; the
`for` loop then starts exactly this many workers. -/
def computeMaxWorkers (configured : Int) (numURLs : Nat) : Int :=
  let m : Int := if configured ≤ 0 then 1 else configured
  if m > numURLs then numURLs else m

/-- One line of the entries.db loader (loadFileChecksumDB, part_006):
`some (checksum, info)` when the line is stored, `none` when it is skipped.
Trim the line; skip empty and `#`-prefixed lines; require exactly 4
`|`-separated fields; require the trimmed first field to be exactly 64
characters (no hex check); fields are stored trimmed. -/
def parseDBLine (line : String) : Option (String × LibraryInfo) :=
  let line := goTrimSpace line
  if line = "" ∨ goStartsWith line "#" then none
  else
    let parts := goSplit line "|"
    if parts.length ≠ 4 then none
    else
      let checksum := goTrimSpace (parts.getD 0 "")
      if checksum.data.length ≠ 64 then none
      else
        some (checksum,
          { Name := goTrimSpace (parts.getD 1 ""),
            Version := goTrimSpace (parts.getD 2 ""),
            Checksum := checksum,
            Method := goTrimSpace (parts.getD 3 "") })

/-- Whether the loader logs a warning for a line: a trimmed non-empty,
non-comment line with the wrong field count or a first field whose trimmed
length is not 64. -/
def dbLineWarned (line : String) : Bool :=
  let line := goTrimSpace line
  if line = "" ∨ goStartsWith line "#" then false
  else
    let parts := goSplit line "|"
    if parts.length ≠ 4 then true
    else (goTrimSpace (parts.getD 0 "")).data.length ≠ 64

/-- loadFileChecksumDB from part_006 over a list of input lines: the
resulting `entries` map (later lines overwrite earlier ones with the same
checksum) and the number of warning log lines emitted.  The loader is total:
no line content aborts the load. -/
def loadFileChecksumDB (lines : List String) : (String → Option LibraryInfo) × Nat :=
  match lines with
  | [] => (fun _ => none, 0)
  | line :: rest =>
    let prev := loadFileChecksumDB rest
    match parseDBLine line with
    | some (checksum, info) =>
      (fun c => match prev.1 c with
        | some v => some v
        | none => if c = checksum then some info else none, prev.2)
    | none => (prev.1, prev.2 + (if dbLineWarned line then 1 else 0))

/-- queryFileChecksumDB from part_006, over a loaded `entries` map: a found
entry is returned as a fresh copy whose `Method` is overwritten with the
literal `"file-db"`; an absent checksum yields nil. -/
def queryFileChecksumDB (entries : String → Option LibraryInfo) (checksum : String) : Option LibraryInfo :=
  match entries checksum with
  | some info =>
    some { Name := info.Name, Version := info.Version,
           Checksum := info.Checksum, Method := "file-db" }
  | none => none

/-- A regex engine that matches nothing: models running the code-analysis
patterns on JavaScript source that none of them match. -/
def noMatchEngine : RegexEngine :=
  { findSubmatch := fun _ _ => none, matchString := fun _ _ => false }

/-- Equality on scheme-detection results is decidable, so witnesses can be
checked by evaluation. -/
instance : DecidableEq (Except Unit String) :=
  fun a b =>
    match a, b with
    | .ok x, .ok y =>
      if h : x = y then isTrue (by rw [h]) else isFalse (by simp [h])
    | .error x, .error y => isTrue (by cases x; cases y; rfl)
    | .ok _, .error _ => isFalse (by simp)
    | .error _, .ok _ => isFalse (by simp)

/-- A regex engine that reports a match exactly for the react signature
pattern: models JavaScript code containing a React signature and nothing
else the analyzers recognize. -/
def reactOnlyEngine : RegexEngine :=
  { findSubmatch := fun _ _ => none,
    matchString := fun p _ => p = "(?i)react|React\\.version|ReactDOM" }

/-- One processURL call bumps `processed` by one and bumps the terminal
bucket sum by one. -/
theorem processURL_step (exclude : String → Bool) (reach : Except Unit URLReachability)
    (url : String) (t : Tracker) :
    (processURL exclude reach url t).1.processed = t.processed + 1 ∧
    (processURL exclude reach url t).1.scanned + (processURL exclude reach url t).1.excluded +
      (processURL exclude reach url t).1.skipped + (processURL exclude reach url t).1.errors
      = t.scanned + t.excluded + t.skipped + t.errors + 1 := by
  unfold processURL
  cases hx : exclude url
  · cases reach with
    | error e => simp; omega
    | ok r =>
      by_cases h1 : !r.HTTPAvailable && !r.HTTPSAvailable
      · simp [h1]; omega
      · by_cases h2 : !hasSuccessfulResponse r
        · simp [h1, h2]; omega
        · simp [h1, h2]; omega
  · simp; omega

/-- C1: every job handed to processURL increments `processed` by exactly one
and exactly one of the scanned/excluded/skipped/errors counters by exactly
one; consequently a fully completed run (each input URL handed to processURL
exactly once, starting from the zero tracker) ends with
`processed = number of input URLs` and
`scanned + excluded + skipped + errors = processed`. -/
theorem c1_processed_and_one_terminal_bucket :
    (∀ (exclude : String → Bool) (reach : Except Unit URLReachability) (url : String) (t : Tracker),
      (processURL exclude reach url t).1.processed = t.processed + 1 ∧
      (((processURL exclude reach url t).1.scanned, (processURL exclude reach url t).1.excluded,
        (processURL exclude reach url t).1.skipped, (processURL exclude reach url t).1.errors)
          = (t.scanned + 1, t.excluded, t.skipped, t.errors) ∨
       ((processURL exclude reach url t).1.scanned, (processURL exclude reach url t).1.excluded,
        (processURL exclude reach url t).1.skipped, (processURL exclude reach url t).1.errors)
          = (t.scanned, t.excluded + 1, t.skipped, t.errors) ∨
       ((processURL exclude reach url t).1.scanned, (processURL exclude reach url t).1.excluded,
        (processURL exclude reach url t).1.skipped, (processURL exclude reach url t).1.errors)
          = (t.scanned, t.excluded, t.skipped + 1, t.errors) ∨
       ((processURL exclude reach url t).1.scanned, (processURL exclude reach url t).1.excluded,
        (processURL exclude reach url t).1.skipped, (processURL exclude reach url t).1.errors)
          = (t.scanned, t.excluded, t.skipped, t.errors + 1))) ∧
    (∀ (exclude : String → Bool) (jobs : List (String × Except Unit URLReachability)),
      (runJobs exclude jobs Tracker.zero).processed = jobs.length ∧
      (runJobs exclude jobs Tracker.zero).scanned + (runJobs exclude jobs Tracker.zero).excluded +
        (runJobs exclude jobs Tracker.zero).skipped + (runJobs exclude jobs Tracker.zero).errors
        = (runJobs exclude jobs Tracker.zero).processed) := by
  constructor
  · intro exclude reach url t
    unfold processURL
    cases hx : exclude url
    · cases reach with
      | error e => simp
      | ok r =>
        by_cases h1 : !r.HTTPAvailable && !r.HTTPSAvailable
        · simp [h1]
        · by_cases h2 : !hasSuccessfulResponse r
          · simp [h1, h2]
          · simp [h1, h2]
    · simp
  · intro exclude jobs
    suffices h : ∀ t : Tracker,
        (runJobs exclude jobs t).processed = t.processed + jobs.length ∧
        (runJobs exclude jobs t).scanned + (runJobs exclude jobs t).excluded +
          (runJobs exclude jobs t).skipped + (runJobs exclude jobs t).errors
          = t.scanned + t.excluded + t.skipped + t.errors + jobs.length by
      obtain ⟨h1, h2⟩ := h Tracker.zero
      refine ⟨by rw [h1]; simp [Tracker.zero], by rw [h2, h1]; simp [Tracker.zero]⟩
    induction jobs with
    | nil => intro t; simp [runJobs]
    | cons jb rest ih =>
      intro t
      obtain ⟨s1, s2⟩ := processURL_step exclude jb.2 jb.1 t
      obtain ⟨i1, i2⟩ := ih (processURL exclude jb.2 jb.1 t).1
      unfold runJobs
      constructor
      · rw [i1, s1]; simp [List.length_cons]; omega
      · rw [i2]; simp [List.length_cons]; omega

/-- C2: identifyLibrary always yields a result (strategy 4 never fails), and
when the URL matches no CDN pattern, the code analysis finds nothing and the
checksum lookup finds nothing, the result has method `"unknown"`, version
`"unknown"` and the name derived from the URL's filename stem by
extractNameFromURL. -/
theorem c2_identify_fallback_guarantee :
    (∀ (E : RegexEngine) (api : String → Option LibraryInfo) (scriptURL checksum jsCode : String),
      (identifyLibrary E api scriptURL checksum jsCode).isSome = true) ∧
    (∀ (E : RegexEngine) (api : String → Option LibraryInfo) (scriptURL checksum jsCode : String),
      identifyLibraryFromURL scriptURL = none →
      identifyLibraryFromCode E jsCode scriptURL = none →
      api checksum = none →
      identifyLibrary E api scriptURL checksum jsCode =
        some { Name := extractNameFromURL scriptURL, Version := "unknown",
               Checksum := checksum, Method := "unknown" }) := by
  constructor
  · intro E api scriptURL checksum jsCode
    unfold identifyLibrary
    cases identifyLibraryFromURL scriptURL
    · cases identifyLibraryFromCode E jsCode scriptURL
      · cases api checksum <;> simp
      · simp
    · simp
  · intro E api scriptURL checksum jsCode h1 h2 h3
    unfold identifyLibrary
    rw [h1, h2, h3]

/-- Witness for C2 at a concrete unrecognized script. -/
theorem c2_identify_fallback_guarantee_witness :
    identifyLibraryFromURL "https://example.org/assets/myscript.min.js" = none ∧
    identifyLibraryFromCode noMatchEngine "var x = 1;" "https://example.org/assets/myscript.min.js" = none ∧
    identifyLibrary noMatchEngine (fun _ => none)
      "https://example.org/assets/myscript.min.js" "0db1" "var x = 1;" =
      some { Name := "myscript", Version := "unknown", Checksum := "0db1", Method := "unknown" } := by
  refine ⟨by decide, by decide, ?_⟩
  have h := c2_identify_fallback_guarantee.2 noMatchEngine (fun _ => none)
    "https://example.org/assets/myscript.min.js" "0db1" "var x = 1;"
    (by decide) (by decide) rfl
  rw [h]
  decide

/-- C3: HasSuccessfulResponse is exactly the HTTP-200-on-either-protocol
predicate, and for a non-excluded job whose reachability check succeeded
with at least one protocol available, it alone decides scanned versus
skipped. -/
theorem c3_success_gate :
    (∀ r : URLReachability,
      hasSuccessfulResponse r = true ↔
        ((r.HTTPAvailable = true ∧ r.HTTPStatusCode = 200) ∨
         (r.HTTPSAvailable = true ∧ r.HTTPSStatusCode = 200))) ∧
    (∀ (exclude : String → Bool) (url : String) (t : Tracker) (r : URLReachability),
      exclude url = false →
      (r.HTTPAvailable = true ∨ r.HTTPSAvailable = true) →
      (((processURL exclude (.ok r) url t).2 = .scanned ↔ hasSuccessfulResponse r = true) ∧
       ((processURL exclude (.ok r) url t).2 = .skipped ↔ hasSuccessfulResponse r = false))) := by
  constructor
  · intro r
    unfold hasSuccessfulResponse
    simp [Bool.or_eq_true, Bool.and_eq_true, beq_iff_eq]
  · intro exclude url t r hx hav
    have h1 : (!r.HTTPAvailable && !r.HTTPSAvailable) = false := by
      rcases hav with h | h <;> simp [h]
    by_cases h2 : hasSuccessfulResponse r
    · simp [processURL, hx, h1, h2]
    · simp only [Bool.not_eq_true] at h2
      simp [processURL, hx, h1, h2]

/-- Witness for C3: HTTPS-only 200 response passes the gate and the job is
scanned. -/
theorem c3_success_gate_witness :
    hasSuccessfulResponse
      { OriginalURL := "example.com", HTTPAvailable := false, HTTPSAvailable := true,
        HTTPStatusCode := 0, HTTPSStatusCode := 200, HTTPRedirectURL := "",
        HTTPSRedirectURL := "", FinalURL := "https://example.com" } = true ∧
    (processURL (fun _ => false)
      (.ok { OriginalURL := "example.com", HTTPAvailable := false, HTTPSAvailable := true,
             HTTPStatusCode := 0, HTTPSStatusCode := 200, HTTPRedirectURL := "",
             HTTPSRedirectURL := "", FinalURL := "https://example.com" })
      "example.com" Tracker.zero).2 = .scanned := by
  refine ⟨by decide, ?_⟩
  have h := (c3_success_gate.2 (fun _ => false) "example.com" Tracker.zero
    { OriginalURL := "example.com", HTTPAvailable := false, HTTPSAvailable := true,
      HTTPStatusCode := 0, HTTPSStatusCode := 200, HTTPRedirectURL := "",
      HTTPSRedirectURL := "", FinalURL := "https://example.com" }
    rfl (Or.inr rfl)).1
  exact h.mpr (by decide)

/-- Counterexample to C4: for the scheme-less input `"example.com"` with the
HTTP probe answering 200 and the HTTPS probe answering 404 (no redirects),
checkURLReachability takes `finalURL` from the HTTPS probe even though HTTPS
did not return 200, while the claim demands the HTTP-derived URL. -/
theorem c4_counterexample_https_not_200 :
    checkURLReachability "example.com"
      (some { status := 200, finalReqURL := "http://example.com" })
      (some { status := 404, finalReqURL := "https://example.com" }) =
      some { OriginalURL := "example.com", HTTPAvailable := true, HTTPSAvailable := true,
             HTTPStatusCode := 200, HTTPSStatusCode := 404,
             HTTPRedirectURL := "", HTTPSRedirectURL := "",
             FinalURL := "https://example.com" } ∧
    "https://example.com" ≠ "http://example.com" := by
  refine ⟨by decide, by decide⟩

/-- C4 as the code has it: for a scheme-less input, `finalURL` is taken from
the HTTPS probe whenever the HTTPS probe completed at all
(`HTTPSAvailable`, any status code), else from the HTTP probe when that one
completed, else left empty. -/
theorem c4_finalURL_follows_availability (inputURL : String) (hp hsp : Option ProbeResult)
    (r : URLReachability)
    (hscheme : getScheme inputURL = .ok "")
    (hres : checkURLReachability inputURL hp hsp = some r) :
    (r.HTTPSAvailable = true →
      r.FinalURL = determineRedirectURL ("https://" ++ goTrimPfx inputURL "//") r.HTTPSRedirectURL) ∧
    (r.HTTPSAvailable = false → r.HTTPAvailable = true →
      r.FinalURL = determineRedirectURL ("http://" ++ goTrimPfx inputURL "//") r.HTTPRedirectURL) ∧
    (r.HTTPSAvailable = false → r.HTTPAvailable = false → r.FinalURL = "") := by
  unfold checkURLReachability at hres
  rw [hscheme] at hres
  simp only [reduceIte] at hres
  rcases hp with _ | ⟨ps⟩ <;> rcases hsp with _ | ⟨pss⟩ <;>
    simp only [checkProtocol] at hres <;>
    obtain rfl := Option.some.inj hres <;>
    simp [determineRedirectURL]

/-- Witness for C4's amended statement: HTTPS-only probe with a redirect;
the final URL is the HTTPS redirect target. -/
theorem c4_finalURL_follows_availability_witness :
    checkURLReachability "example.com" none
      (some { status := 301, finalReqURL := "https://www.example.com" }) =
      some { OriginalURL := "example.com", HTTPAvailable := false, HTTPSAvailable := true,
             HTTPStatusCode := 0, HTTPSStatusCode := 301,
             HTTPRedirectURL := "", HTTPSRedirectURL := "https://www.example.com",
             FinalURL := "https://www.example.com" } ∧
    ({ OriginalURL := "example.com", HTTPAvailable := false, HTTPSAvailable := true,
       HTTPStatusCode := 0, HTTPSStatusCode := 301,
       HTTPRedirectURL := "", HTTPSRedirectURL := "https://www.example.com",
       FinalURL := "https://www.example.com" } : URLReachability).FinalURL =
      determineRedirectURL ("https://" ++ goTrimPfx "example.com" "//")
        ({ OriginalURL := "example.com", HTTPAvailable := false, HTTPSAvailable := true,
           HTTPStatusCode := 0, HTTPSStatusCode := 301,
           HTTPRedirectURL := "", HTTPSRedirectURL := "https://www.example.com",
           FinalURL := "https://www.example.com" } : URLReachability).HTTPSRedirectURL := by
  refine ⟨by decide, ?_⟩
  exact (c4_finalURL_follows_availability "example.com" none
    (some { status := 301, finalReqURL := "https://www.example.com" })
    { OriginalURL := "example.com", HTTPAvailable := false, HTTPSAvailable := true,
      HTTPStatusCode := 0, HTTPSStatusCode := 301,
      HTTPRedirectURL := "", HTTPSRedirectURL := "https://www.example.com",
      FinalURL := "https://www.example.com" }
    (by decide) (by decide)).1 rfl

/-- C5: a script URL on which the cdnjs pattern (the first entry of the
pattern table) captures library `"jquery"` and version `"3.6.0"` is
identified as jquery 3.6.0 by `"url-pattern"`, for every code body, every
regex-engine behaviour on the code, and every checksum-lookup outcome —
strategy 1 short-circuits the rest of the chain. -/
theorem c5_url_pattern_priority (scriptURL checksum jsCode : String) (E : RegexEngine)
    (api : String → Option LibraryInfo)
    (h : matchCdnjs scriptURL = some ("jquery", "3.6.0")) :
    identifyLibrary E api scriptURL checksum jsCode =
      some { Name := "jquery", Version := "3.6.0", Checksum := checksum, Method := "url-pattern" } := by
  unfold identifyLibrary identifyLibraryFromURL cdnPatterns firstMatch
  rw [h]
  have hn : goReplaceAll (goReplaceAll "jquery" ".min" "") "_" "-" = "jquery" := by decide
  show some ({ Name := goReplaceAll (goReplaceAll "jquery" ".min" "") "_" "-",
               Version := "3.6.0", Checksum := checksum, Method := "url-pattern" } : LibraryInfo) =
    some { Name := "jquery", Version := "3.6.0", Checksum := checksum, Method := "url-pattern" }
  rw [hn]

/-- Witness for C5 at the concrete cdnjs jquery URL, with code whose
signature analysis alone would have said react. -/
theorem c5_url_pattern_priority_witness :
    matchCdnjs "https://cdnjs.cloudflare.com/ajax/libs/jquery/3.6.0/jquery.min.js" =
      some ("jquery", "3.6.0") ∧
    identifyLibraryFromCode reactOnlyEngine "ReactDOM.render(x)"
      "https://cdnjs.cloudflare.com/ajax/libs/jquery/3.6.0/jquery.min.js" =
      some { Name := "react", Version := "unknown", Checksum := "", Method := "signature-analysis" } ∧
    identifyLibrary reactOnlyEngine (fun _ => none)
      "https://cdnjs.cloudflare.com/ajax/libs/jquery/3.6.0/jquery.min.js" "cafe01" "ReactDOM.render(x)" =
      some { Name := "jquery", Version := "3.6.0", Checksum := "cafe01", Method := "url-pattern" } := by
  refine ⟨by decide, by decide, ?_⟩
  exact c5_url_pattern_priority
    "https://cdnjs.cloudflare.com/ajax/libs/jquery/3.6.0/jquery.min.js" "cafe01"
    "ReactDOM.render(x)" reactOnlyEngine (fun _ => none) (by decide)

/-- Counterexample to C6: for a checksum no lookup source identifies, a
failed call is not cached, so each call launches a fresh external API query;
after two calls the API has been queried twice for the same checksum,
refuting "queried at most once per distinct checksum per run". -/
theorem c6_counterexample_api_requeried :
    ¬ (apiQueryCount
        (identifyLibraryFromAPI (fun _ => none)
          (identifyLibraryFromAPI (fun _ => none)
            { cache := [], apiQueries := [] } "deadbeef").2 "deadbeef").2 "deadbeef" ≤ 1) := by
  decide

/-- C6 as the code has it: once a call for a checksum has returned a result,
that result sits in the in-memory cache; a repeated call returns the very
same LibraryInfo from the cache and leaves the state unchanged — in
particular no further external API query is issued for that checksum. -/
theorem c6_cache_idempotent_after_success (race : String → Option LibraryInfo)
    (st : IdState) (checksum : String) (info : LibraryInfo)
    (h : (identifyLibraryFromAPI race st checksum).1 = some info) :
    cacheGet (identifyLibraryFromAPI race st checksum).2.cache checksum = some info ∧
    identifyLibraryFromAPI race (identifyLibraryFromAPI race st checksum).2 checksum =
      (some info, (identifyLibraryFromAPI race st checksum).2) := by
  cases hc : cacheGet st.cache checksum with
  | some cached =>
    have h1 : identifyLibraryFromAPI race st checksum = (some cached, st) := by
      unfold identifyLibraryFromAPI; rw [hc]
    rw [h1] at h
    have h2 : some cached = some info := h
    obtain rfl := Option.some.inj h2
    rw [h1]
    refine ⟨hc, ?_⟩
    unfold identifyLibraryFromAPI
    rw [hc]
  | none =>
    cases hr : race checksum with
    | none =>
      have h1 : identifyLibraryFromAPI race st checksum =
          (none, { cache := st.cache, apiQueries := st.apiQueries ++ [checksum] }) := by
        unfold identifyLibraryFromAPI; rw [hc, hr]
      rw [h1] at h
      simp at h
    | some result =>
      have h1 : identifyLibraryFromAPI race st checksum =
          (some result,
           { cache := (checksum, result) :: st.cache,
             apiQueries := st.apiQueries ++ [checksum] }) := by
        unfold identifyLibraryFromAPI; rw [hc, hr]
      rw [h1] at h
      have h2 : some result = some info := h
      obtain rfl := Option.some.inj h2
      rw [h1]
      have hg : cacheGet ((checksum, result) :: st.cache) checksum = some result := by
        unfold cacheGet; simp
      refine ⟨hg, ?_⟩
      unfold identifyLibraryFromAPI
      rw [hg]

/-- Witness for C6's amended statement: a successful lookup, then a repeat
call served from the cache with the state (and API-query log) unchanged. -/
theorem c6_cache_idempotent_after_success_witness :
    (identifyLibraryFromAPI
        (fun _ => some { Name := "jquery", Version := "3.6.0", Checksum := "ab12", Method := "publicdata-api" })
        { cache := [], apiQueries := [] } "ab12").1 =
      some { Name := "jquery", Version := "3.6.0", Checksum := "ab12", Method := "publicdata-api" } ∧
    identifyLibraryFromAPI
        (fun _ => some { Name := "jquery", Version := "3.6.0", Checksum := "ab12", Method := "publicdata-api" })
        (identifyLibraryFromAPI
          (fun _ => some { Name := "jquery", Version := "3.6.0", Checksum := "ab12", Method := "publicdata-api" })
          { cache := [], apiQueries := [] } "ab12").2 "ab12" =
      (some { Name := "jquery", Version := "3.6.0", Checksum := "ab12", Method := "publicdata-api" },
       (identifyLibraryFromAPI
          (fun _ => some { Name := "jquery", Version := "3.6.0", Checksum := "ab12", Method := "publicdata-api" })
          { cache := [], apiQueries := [] } "ab12").2) := by
  refine ⟨by decide, ?_⟩
  exact (c6_cache_idempotent_after_success
    (fun _ => some { Name := "jquery", Version := "3.6.0", Checksum := "ab12", Method := "publicdata-api" })
    { cache := [], apiQueries := [] } "ab12"
    { Name := "jquery", Version := "3.6.0", Checksum := "ab12", Method := "publicdata-api" }
    (by decide)).2

/-- Counterexample to C7: with 3 configured workers and an empty URL list,
ProcessURLs computes 0 workers (the clamp to a minimum of 1 happens before
the clamp to the job count), refuting "at least 1". -/
theorem c7_counterexample_zero_jobs :
    computeMaxWorkers 3 0 = 0 ∧ ¬ (1 ≤ computeMaxWorkers 3 0) := by
  decide

/-- C7 as the code has it: the worker count is
`min (max configured 1) jobCount`; it is at least 1 whenever there is at
least one job, and equals `min configured jobCount` whenever the configured
count is at least 1 — but with zero jobs zero workers start. -/
theorem c7_worker_count_clamped (configured : Int) (numURLs : Nat) :
    computeMaxWorkers configured numURLs = min (max configured 1) (numURLs : Int) ∧
    (1 ≤ numURLs → 1 ≤ computeMaxWorkers configured numURLs) ∧
    (1 ≤ configured → computeMaxWorkers configured numURLs = min configured (numURLs : Int)) := by
  simp only [computeMaxWorkers]
  split_ifs <;>
    refine ⟨by omega, fun h => by omega, fun h2 => by omega⟩

/-- Witness for C7's amended statement at 3 configured workers and 5
jobs. -/
theorem c7_worker_count_clamped_witness :
    computeMaxWorkers 3 5 = min (max 3 1) 5 ∧ 1 ≤ computeMaxWorkers 3 5 ∧
    computeMaxWorkers 3 5 = min 3 5 :=
  ⟨(c7_worker_count_clamped 3 5).1,
   (c7_worker_count_clamped 3 5).2.1 (by decide),
   (c7_worker_count_clamped 3 5).2.2 (by decide)⟩

/-- Counterexample to C8: the URL-pattern identifier never lower-cases; a
cdnjs URL with library segment `"JQuery"` yields the name `"JQuery"`, which
differs from its own lower-casing. -/
theorem c8_counterexample_no_lowercasing :
    identifyLibraryFromURL "https://cdnjs.cloudflare.com/ajax/libs/JQuery/3.6.0/jquery.min.js" =
      some { Name := "JQuery", Version := "3.6.0", Checksum := "", Method := "url-pattern" } ∧
    goToLower "JQuery" ≠ "JQuery" := by
  refine ⟨by decide, by decide⟩

/-- C8 as the code has it: for every URL matched by a CDN pattern, the name
is the pattern's extracted capture with each non-overlapping `".min"`
occurrence removed (single left-to-right pass) and underscores replaced by
hyphens — letter case is preserved, no lower-casing happens. -/
theorem c8_name_min_stripped_case_preserved (url : String) (info : LibraryInfo)
    (h : identifyLibraryFromURL url = some info) :
    ∃ raw ver, firstMatch cdnPatterns url = some (raw, ver) ∧
      info.Name = goReplaceAll (goReplaceAll raw ".min" "") "_" "-" ∧
      info.Version = ver ∧ info.Method = "url-pattern" ∧ info.Checksum = "" := by
  unfold identifyLibraryFromURL at h
  cases hm : firstMatch cdnPatterns url with
  | none => rw [hm] at h; exact absurd h (by simp)
  | some nv =>
    obtain ⟨raw, ver⟩ := nv
    rw [hm] at h
    obtain rfl := Option.some.inj h
    exact ⟨raw, ver, rfl, rfl, rfl, rfl, rfl⟩

/-- Witness for C8's amended statement: an unpkg URL whose library segment
mixes case and contains `".min"` and an underscore. -/
theorem c8_name_min_stripped_case_preserved_witness :
    identifyLibraryFromURL "https://unpkg.com/My_lib.min@1.2/x.js" =
      some { Name := "My-lib", Version := "1.2", Checksum := "", Method := "url-pattern" } ∧
    (∃ raw ver, firstMatch cdnPatterns "https://unpkg.com/My_lib.min@1.2/x.js" = some (raw, ver) ∧
      ({ Name := "My-lib", Version := "1.2", Checksum := "", Method := "url-pattern" } : LibraryInfo).Name =
        goReplaceAll (goReplaceAll raw ".min" "") "_" "-" ∧
      ({ Name := "My-lib", Version := "1.2", Checksum := "", Method := "url-pattern" } : LibraryInfo).Version = ver ∧
      ({ Name := "My-lib", Version := "1.2", Checksum := "", Method := "url-pattern" } : LibraryInfo).Method = "url-pattern" ∧
      ({ Name := "My-lib", Version := "1.2", Checksum := "", Method := "url-pattern" } : LibraryInfo).Checksum = "") := by
  refine ⟨by decide, ?_⟩
  exact c8_name_min_stripped_case_preserved "https://unpkg.com/My_lib.min@1.2/x.js"
    { Name := "My-lib", Version := "1.2", Checksum := "", Method := "url-pattern" } (by decide)

/-- A stored line is never warned about: the warning predicate is disjoint
from acceptance. -/
theorem parseDBLine_some_not_warned (line : String)
    (h : (parseDBLine line).isSome = true) : dbLineWarned line = false := by
  simp only [parseDBLine] at h
  simp only [dbLineWarned]
  split_ifs at h ⊢ with h1 h2 h3 <;> simp_all

/-- Counterexample to C9: a comment line is skipped, but silently — the
loader emits no warning for it (warnings are only emitted for malformed
entries), refuting "every other line is skipped with a warning". -/
theorem c9_counterexample_comment_no_warning :
    parseDBLine "# comment line" = none ∧
    (loadFileChecksumDB ["# comment line"]).2 = 0 ∧
    ¬ (1 ≤ (loadFileChecksumDB ["# comment line"]).2) := by
  refine ⟨by decide, by decide, by decide⟩

/-- C9 as the code has it: the loader stores exactly the lines that (after
trimming) are non-empty, not `#`-prefixed, split into exactly 4
`|`-separated fields with a trimmed first field of exactly 64 characters (no
hex check); malformed entries are skipped with a warning, empty and comment
lines are skipped silently, and no line content aborts the load (the loader
is a total function of the line list). -/
theorem c9_loader_stores_valid_lines :
    (∀ line : String,
      (parseDBLine line).isSome = true ↔
        (goTrimSpace line ≠ "" ∧ goStartsWith (goTrimSpace line) "#" = false ∧
         (goSplit (goTrimSpace line) "|").length = 4 ∧
         (goTrimSpace ((goSplit (goTrimSpace line) "|").getD 0 "")).data.length = 64)) ∧
    (∀ lines : List String,
      (loadFileChecksumDB lines).2 = (lines.filter dbLineWarned).length) ∧
    (∀ (lines : List String) (c : String),
      ((loadFileChecksumDB lines).1 c).isSome = true ↔
        ∃ line ∈ lines, ∃ info, parseDBLine line = some (c, info)) := by
  refine ⟨?_, ?_, ?_⟩
  · intro line
    simp only [parseDBLine]
    split_ifs with h1 h2 h3
    · constructor
      · intro hx; simp at hx
      · rintro ⟨hne, hsw, -, -⟩
        rcases h1 with h | h
        · exact (hne h).elim
        · rw [h] at hsw; cases hsw
    · constructor
      · intro hx; simp at hx
      · rintro ⟨-, -, hlen, -⟩
        exact (h2 hlen).elim
    · constructor
      · intro hx; simp at hx
      · rintro ⟨-, -, -, hck⟩
        exact (h3 hck).elim
    · rw [not_or, Bool.not_eq_true] at h1
      constructor
      · intro _
        exact ⟨h1.1, h1.2, not_ne_iff.mp h2, not_ne_iff.mp h3⟩
      · intro _
        simp
  · intro lines
    induction lines with
    | nil => simp [loadFileChecksumDB]
    | cons l rest ih =>
      unfold loadFileChecksumDB
      cases hp : parseDBLine l with
      | some e =>
        have hw : dbLineWarned l = false :=
          parseDBLine_some_not_warned l (by rw [hp]; rfl)
        obtain ⟨ck, inf⟩ := e
        simp [List.filter_cons, hw, ih]
      | none =>
        simp only [List.filter_cons]
        cases hw : dbLineWarned l <;> simp [hw, ih]
  · intro lines c
    induction lines with
    | nil => simp [loadFileChecksumDB]
    | cons l rest ih =>
      unfold loadFileChecksumDB
      cases hp : parseDBLine l with
      | none =>
        simp only [List.mem_cons]
        constructor
        · intro hs
          obtain ⟨line, hmem, info, hpl⟩ := ih.mp hs
          exact ⟨line, Or.inr hmem, info, hpl⟩
        · rintro ⟨line, hmem, info, hpl⟩
          rcases hmem with rfl | hmem2
          · rw [hp] at hpl; cases hpl
          · exact ih.mpr ⟨line, hmem2, info, hpl⟩
      | some e =>
        obtain ⟨ck, inf⟩ := e
        simp only [List.mem_cons]
        constructor
        · intro hs
          cases hq : (loadFileChecksumDB rest).1 c with
          | some v =>
            obtain ⟨line, hmem, info, hpl⟩ := ih.mp (by rw [hq]; rfl)
            exact ⟨line, Or.inr hmem, info, hpl⟩
          | none =>
            by_cases he : c = ck
            · exact ⟨l, Or.inl rfl, inf, by rw [hp, he]⟩
            · simp [hq, he] at hs
        · rintro ⟨line, hmem, info, hpl⟩
          rcases hmem with rfl | hmem2
          · rw [hp] at hpl
            obtain ⟨hpc, _⟩ := Prod.mk.injEq .. ▸ Option.some.inj hpl
            cases hq : (loadFileChecksumDB rest).1 c <;> simp [hq, hpc.symm]
          · have hprev := ih.mpr ⟨line, hmem2, info, hpl⟩
            cases hq : (loadFileChecksumDB rest).1 c with
            | some v => simp [hq]
            | none => rw [hq] at hprev; cases hprev

/-- Witness for C9's amended statement: a well-formed line is stored. -/
theorem c9_loader_stores_valid_lines_witness :
    (parseDBLine
      "aaaaaaaaaaaaaaaaaaaaaaaaaaaaaaaaaaaaaaaaaaaaaaaaaaaaaaaaaaaaaaaa|jquery|3.6.0|manual").isSome = true :=
  (c9_loader_stores_valid_lines.1
    "aaaaaaaaaaaaaaaaaaaaaaaaaaaaaaaaaaaaaaaaaaaaaaaaaaaaaaaaaaaaaaaa|jquery|3.6.0|manual").mpr
    ⟨by decide, by decide, by decide, by decide⟩

/-- C10: a checksum present in the loaded file database is returned as a
copy whose Method is the literal `"file-db"`, whatever method string the
entry's line recorded; an absent checksum yields nil. -/
theorem c10_filedb_lookup (lines : List String) (c : String) :
    ((loadFileChecksumDB lines).1 c = none →
      queryFileChecksumDB (loadFileChecksumDB lines).1 c = none) ∧
    (∀ info, (loadFileChecksumDB lines).1 c = some info →
      queryFileChecksumDB (loadFileChecksumDB lines).1 c =
        some { Name := info.Name, Version := info.Version,
               Checksum := info.Checksum, Method := "file-db" }) := by
  constructor
  · intro h; unfold queryFileChecksumDB; rw [h]
  · intro info h; unfold queryFileChecksumDB; rw [h]

/-- Witness for C10: an entry recorded with method `"manual"` is served with
method `"file-db"`; an absent checksum yields none. -/
theorem c10_filedb_lookup_witness :
    (loadFileChecksumDB
        ["aaaaaaaaaaaaaaaaaaaaaaaaaaaaaaaaaaaaaaaaaaaaaaaaaaaaaaaaaaaaaaaa|jquery|3.6.0|manual"]).1
        "aaaaaaaaaaaaaaaaaaaaaaaaaaaaaaaaaaaaaaaaaaaaaaaaaaaaaaaaaaaaaaaa" =
      some { Name := "jquery", Version := "3.6.0",
             Checksum := "aaaaaaaaaaaaaaaaaaaaaaaaaaaaaaaaaaaaaaaaaaaaaaaaaaaaaaaaaaaaaaaa",
             Method := "manual" } ∧
    queryFileChecksumDB
        (loadFileChecksumDB
          ["aaaaaaaaaaaaaaaaaaaaaaaaaaaaaaaaaaaaaaaaaaaaaaaaaaaaaaaaaaaaaaaa|jquery|3.6.0|manual"]).1
        "aaaaaaaaaaaaaaaaaaaaaaaaaaaaaaaaaaaaaaaaaaaaaaaaaaaaaaaaaaaaaaaa" =
      some { Name := "jquery", Version := "3.6.0",
             Checksum := "aaaaaaaaaaaaaaaaaaaaaaaaaaaaaaaaaaaaaaaaaaaaaaaaaaaaaaaaaaaaaaaa",
             Method := "file-db" } ∧
    queryFileChecksumDB
        (loadFileChecksumDB
          ["aaaaaaaaaaaaaaaaaaaaaaaaaaaaaaaaaaaaaaaaaaaaaaaaaaaaaaaaaaaaaaaa|jquery|3.6.0|manual"]).1
        "bbbb" = none := by
  refine ⟨by decide, ?_, ?_⟩
  · exact (c10_filedb_lookup
      ["aaaaaaaaaaaaaaaaaaaaaaaaaaaaaaaaaaaaaaaaaaaaaaaaaaaaaaaaaaaaaaaa|jquery|3.6.0|manual"]
      "aaaaaaaaaaaaaaaaaaaaaaaaaaaaaaaaaaaaaaaaaaaaaaaaaaaaaaaaaaaaaaaa").2
      { Name := "jquery", Version := "3.6.0",
        Checksum := "aaaaaaaaaaaaaaaaaaaaaaaaaaaaaaaaaaaaaaaaaaaaaaaaaaaaaaaaaaaaaaaa",
        Method := "manual" } (by decide)
  · exact (c10_filedb_lookup
      ["aaaaaaaaaaaaaaaaaaaaaaaaaaaaaaaaaaaaaaaaaaaaaaaaaaaaaaaaaaaaaaaa|jquery|3.6.0|manual"]
      "bbbb").1 (by decide)

end NetWeather
